import Mathlib

/-!
Shallow embedding of the cash-register automation core of the repository:
the schedule evaluator and configuration storage of
`server/cash-schedule-storage.ts`, and the `CashAutomationService`
orchestrator/executor workflows.

Modelling conventions:
* Instants are minutes since an epoch placed at a Monday 00:00 UTC, so the
  weekday of a local time is `(ediv by 1440) emod 7 + 1` with 1 = Monday and
  7 = Sunday, matching the source's `getDay() || 7` convention.
* IANA timezone identifiers are modelled as fixed UTC offsets in minutes
  (Argentina observes no DST; only the zones the development mentions are
  tabulated, every other identifier is mapped to offset 0).
* Monetary amounts are exact rationals; the `toFixed` string formatting in
  the source is presentational and is not modelled.
* Database calls that the source wraps in try/catch are modelled by a
  `FailSpec` record stating which step throws; a thrown step performs no
  mutation and control reaches the catch block, exactly as a failed awaited
  statement would.
-/

namespace CashAutomation

/-- The two operation types accepted by `shouldExecuteAutoOperation`
(the source's string union `'open' | 'close'`). -/
inductive OpType
  | opOpen
  | opClose
deriving DecidableEq

/-- Row of the `cash_schedule_config` table, with `activeDays` already split
on commas and parsed to integers as the evaluator does. -/
structure ScheduleConfig where
  autoOpenEnabled : Bool
  autoCloseEnabled : Bool
  openHour : Int
  openMinute : Int
  closeHour : Int
  closeMinute : Int
  activeDays : List Int
  timezone : String
deriving DecidableEq

/-- The timezone identifier hard-coded throughout the source. -/
def argentinaZone : String := "America/Argentina/Buenos_Aires"

/-- Fixed UTC offset, in minutes, of the timezone identifiers used in this
development.  Argentina is UTC-3 all year. -/
def tzOffsetMinutes (tz : String) : Int :=
  if tz = argentinaZone then -180 else 0

/-- JavaScript `x || d` on a number already parsed with `parseInt`: the value
0 is falsy and is replaced by the default. -/
def jsOr (x d : Int) : Int :=
  if x = 0 then d else x

/-- Core of `shouldExecuteAutoOperation` (cash-schedule-storage.ts lines
160-224), parameterised by the UTC offset used to obtain the local wall
clock.  `currentDay` is the 1=Monday..7=Sunday weekday of the local time,
`currentTime` its minutes-of-day; the open branch requires today to be an
active day and the current time to fall in the 5-minute window at the open
time; the close branch first decides wraparound (`closeTime` clockwise at or
before `openTime`), in which case it tests membership of `(currentDay mod 7)
+ 1` — the day AFTER the current one — in `activeDays`, and otherwise tests
`currentDay`, then applies the same 5-minute window at the close time. -/
def shouldExecuteCore (cfg : ScheduleConfig) (op : OpType) (off : Int) (t : Int) : Bool :=
  let localMin := t + off
  let currentDay := (localMin.ediv 1440).emod 7 + 1
  let currentTime := localMin.emod 1440
  let openHour := jsOr cfg.openHour 9
  let openMinute := jsOr cfg.openMinute 0
  let closeHour := jsOr cfg.closeHour 18
  let closeMinute := jsOr cfg.closeMinute 0
  match op with
  | OpType.opOpen =>
    if cfg.autoOpenEnabled then
      if cfg.activeDays.contains currentDay then
        let openTime := openHour * 60 + openMinute
        decide (openTime ≤ currentTime ∧ currentTime < openTime + 5)
      else false
    else false
  | OpType.opClose =>
    if cfg.autoCloseEnabled then
      let closeTime := closeHour * 60 + closeMinute
      let dayOk :=
        if closeHour < openHour ∨ (closeHour = openHour ∧ closeMinute ≤ openMinute) then
          cfg.activeDays.contains (currentDay.emod 7 + 1)
        else
          cfg.activeDays.contains currentDay
      if dayOk then
        decide (closeTime ≤ currentTime ∧ currentTime < closeTime + 5)
      else false
    else false

/-- `shouldExecuteAutoOperation` of cash-schedule-storage.ts, lines 142-229:
a missing configuration yields `false`; otherwise the evaluation uses the
local wall clock of the HARD-CODED `America/Argentina/Buenos_Aires` zone
(lines 149-158 format `now` with that fixed `timeZone`), not the
configuration's `timezone` column. -/
def shouldExecuteAutoOperation (cfg? : Option ScheduleConfig) (op : OpType) (t : Int) : Bool :=
  match cfg? with
  | none => false
  | some cfg => shouldExecuteCore cfg op (tzOffsetMinutes argentinaZone) t

/-- Modelled from the spec: "a ScheduleConfig, an operation type, and an
instant interpreted in the config's timezone" — identical to the source
evaluator except that the local wall clock is taken in the configuration's
own `timezone` field.  Used only to compare the source behaviour against the
specified one. -/
def shouldExecuteSpecTimezone (cfg? : Option ScheduleConfig) (op : OpType) (t : Int) : Bool :=
  match cfg? with
  | none => false
  | some cfg => shouldExecuteCore cfg op (tzOffsetMinutes cfg.timezone) t

/-- Configuration of the spec's wraparound test: open 09:00, close 02:00,
active days {Monday}. -/
def wrapConfig : ScheduleConfig :=
  { autoOpenEnabled := true
    autoCloseEnabled := true
    openHour := 9
    openMinute := 0
    closeHour := 2
    closeMinute := 0
    activeDays := [1]
    timezone := argentinaZone }

/-- Tuesday 02:00 Argentina local time: local minutes 1*1440 + 120, shifted
back to UTC by the -180 offset. -/
def tuesdayTwoAM : Int := 1740

/-- A configuration whose timezone column is UTC, open 09:00, all days
active: with the 5-minute window, an open evaluation at Monday 09:00 UTC is
due under the configured timezone but not under Argentina local time
(Monday 06:00). -/
def utcConfig : ScheduleConfig :=
  { autoOpenEnabled := true
    autoCloseEnabled := false
    openHour := 9
    openMinute := 0
    closeHour := 18
    closeMinute := 0
    activeDays := [1, 2, 3, 4, 5, 6, 7]
    timezone := "UTC" }

/-- Caller-supplied configuration data reaching `upsertScheduleConfig`
(cash-schedule-storage.ts lines 52-66).  The hour/minute fields carry the
result of JavaScript `parseInt`: `none` stands for `NaN` (missing or
unparsable input), `some n` for the parsed integer.  `activeDays` and
`timezone` are strings, with the empty string as the only falsy value a
string column can take here. -/
structure ConfigInput where
  autoOpenEnabled : Bool
  autoCloseEnabled : Bool
  openHour : Option Int
  openMinute : Option Int
  closeHour : Option Int
  closeMinute : Option Int
  activeDays : String
  timezone : String
deriving DecidableEq

/-- The column values `upsertScheduleConfig` persists (both in its update
and in its insert branch). -/
structure StoredScheduleConfig where
  autoOpenEnabled : Bool
  autoCloseEnabled : Bool
  openHour : Int
  openMinute : Int
  closeHour : Int
  closeMinute : Int
  activeDays : String
  timezone : String
deriving DecidableEq

/-- JavaScript `parseInt(x) || d`: `NaN` and 0 are both falsy, so a missing
value and a parsed 0 are both replaced by the default. -/
def parseIntOr (x : Option Int) (d : Int) : Int :=
  match x with
  | none => d
  | some n => jsOr n d

/-- The `cleanData` object built by `upsertScheduleConfig`
(cash-schedule-storage.ts lines 57-66): every falsy field value is replaced
by its default. -/
def cleanData (c : ConfigInput) : StoredScheduleConfig :=
  { autoOpenEnabled := c.autoOpenEnabled
    autoCloseEnabled := c.autoCloseEnabled
    openHour := parseIntOr c.openHour 9
    openMinute := parseIntOr c.openMinute 0
    closeHour := parseIntOr c.closeHour 18
    closeMinute := parseIntOr c.closeMinute 0
    activeDays := if c.activeDays = "" then "1,2,3,4,5,6,7" else c.activeDays
    timezone := if c.timezone = "" then argentinaZone else c.timezone }

/-- `upsertScheduleConfig` (cash-schedule-storage.ts lines 52-98): whether a
configuration row already exists or not, the persisted field values are
exactly `cleanData` of the input. -/
def upsertScheduleConfig (existing : Option StoredScheduleConfig) (c : ConfigInput) :
    StoredScheduleConfig :=
  match existing with
  | some _ => cleanData c
  | none => cleanData c

/-- The tenant's cash register as the executor workflows read and write it:
`executeAutoOpen` consults `isOpen`, `executeAutoClose` queries for the
register in open state and reads `initialBalance`, closes it stamping the
final balance, the closing timestamp and a null `closedBy` (automatic
closure). -/
structure Register where
  id : Nat
  clientId : Nat
  isOpen : Bool
  initialBalance : ℚ
  finalBalance : Option ℚ
  closedBy : Option Nat
  closedAt : Option Int
deriving DecidableEq

/-- Row of the `cash_auto_operations_log` table (cash-schedule-storage.ts
lines 21-33); `executedTime` is the instant the entry was written
(`defaultNow`). -/
structure LogEntry where
  clientId : Nat
  operationType : String
  cashRegisterId : Option Nat
  scheduledTime : Option Int
  executedTime : Int
  status : String
  errorMessage : Option String
  reportId : Option Nat
  notes : Option String
deriving DecidableEq

/-- The real-time cash state `executeAutoClose` fetches for the report
(`getRealTimeCashState`): the day's running totals and the final balance. -/
structure RealTimeState where
  total_ventas : ℚ
  total_gastos : ℚ
  efectivo_ars : ℚ
  efectivo_usd : ℚ
  transferencia_ars : ℚ
  transferencia_usd : ℚ
  transferencia_usdt : ℚ
  financiera_ars : ℚ
  financiera_usd : ℚ
  balance_final : ℚ
  total_movimientos : Nat
deriving DecidableEq

/-- Row inserted into `dailyReports` by `executeAutoClose` (part_000 lines
184-204). -/
structure DailyReport where
  id : Nat
  clientId : Nat
  reportDate : Int
  balanceApertura : ℚ
  totalVentas : ℚ
  totalGastos : ℚ
  efectivoArs : ℚ
  efectivoUsd : ℚ
  transferenciaArs : ℚ
  transferenciaUsd : ℚ
  transferenciaUsdt : ℚ
  financieraArs : ℚ
  financieraUsd : ℚ
  balanceCierre : ℚ
  gananciaNeta : ℚ
  movimientos : Nat
  autoGeneratedType : String
deriving DecidableEq

/-- Per-tenant system state the executor workflows read and mutate: the
tenant's current register (the latest one, open or closed), the persisted
daily reports, the append-only operations log, and the next fresh row id. -/
structure SysState where
  clientId : Nat
  register : Option Register
  reports : List DailyReport
  log : List LogEntry
  nextId : Nat
deriving DecidableEq

/-- Failure injection for the awaited database calls the source wraps in
try/catch: a `true` flag makes that step throw, leaving its own mutation
unapplied and transferring control to the catch block. -/
structure FailSpec where
  createRegisterFails : Bool
  getCashStateFails : Bool
  insertReportFails : Bool
  updateRegisterFails : Bool
deriving DecidableEq

/-- A run in which every database call succeeds. -/
def noFail : FailSpec :=
  { createRegisterFails := false
    getCashStateFails := false
    insertReportFails := false
    updateRegisterFails := false }

/-- The register in open state for the tenant, if any: the close workflow's
`where(and(eq(clientId), eq(status, open)))` query. -/
def openRegister? (s : SysState) : Option Register :=
  match s.register with
  | some r => if r.isOpen then some r else none
  | none => none

/-- Log entry written when auto-open finds the register already open
(part_000 lines 98-104). -/
def openSkippedEntry (clientId : Nat) (regId : Nat) (t : Int) : LogEntry :=
  { clientId := clientId
    operationType := "auto_open"
    cashRegisterId := some regId
    scheduledTime := none
    executedTime := t
    status := "skipped"
    errorMessage := none
    reportId := none
    notes := some "Cash register already open" }

/-- Log entry written after a successful automatic opening (part_000 lines
125-131). -/
def openSuccessEntry (clientId : Nat) (regId : Nat) (t : Int) : LogEntry :=
  { clientId := clientId
    operationType := "auto_open"
    cashRegisterId := some regId
    scheduledTime := none
    executedTime := t
    status := "success"
    errorMessage := none
    reportId := none
    notes := some "Cash register opened automatically" }

/-- Log entry written by auto-open's catch block (part_000 lines 137-142);
the stored message is the thrown error's message. -/
def openFailedEntry (clientId : Nat) (t : Int) : LogEntry :=
  { clientId := clientId
    operationType := "auto_open"
    cashRegisterId := none
    scheduledTime := none
    executedTime := t
    status := "failed"
    errorMessage := some "register creation failed"
    reportId := none
    notes := none }

/-- Log entry written when auto-close finds no open register (part_000
lines 164-169). -/
def closeSkippedEntry (clientId : Nat) (t : Int) : LogEntry :=
  { clientId := clientId
    operationType := "auto_close"
    cashRegisterId := none
    scheduledTime := none
    executedTime := t
    status := "skipped"
    errorMessage := none
    reportId := none
    notes := some "No open cash register found - cannot close what is not open" }

/-- Log entry written by auto-close's catch block (part_000 lines 238-244);
the stored message names the step that threw. -/
def closeFailedEntry (clientId : Nat) (t : Int) (msg : String) : LogEntry :=
  { clientId := clientId
    operationType := "auto_close"
    cashRegisterId := none
    scheduledTime := some t
    executedTime := t
    status := "failed"
    errorMessage := some msg
    reportId := none
    notes := none }

/-- Log entry written after a successful automatic close (part_000 lines
223-231); the source's note interpolates the balance and report id into a
template string, modelled here by a fixed note. -/
def closeSuccessEntry (clientId : Nat) (regId : Nat) (reportId : Nat) (t : Int) : LogEntry :=
  { clientId := clientId
    operationType := "auto_close"
    cashRegisterId := some regId
    scheduledTime := some t
    executedTime := t
    status := "success"
    errorMessage := none
    reportId := some reportId
    notes := some "Auto-closed with balance and report generated" }

/-- Local (Argentina) calendar-day index of an instant, the report date the
close workflow resolves (part_000 lines 176-178). -/
def localDayArg (t : Int) : Int :=
  (t + tzOffsetMinutes argentinaZone).ediv 1440

/-- The `dailyReports` row `executeAutoClose` inserts (part_000 lines
184-204): totals copied from the real-time state, opening balance from the
open register, and `gananciaNeta` computed as the final balance minus the
opening balance. -/
def autoCloseReport (clientId : Nat) (id : Nat) (day : Int) (r : Register)
    (rts : RealTimeState) : DailyReport :=
  { id := id
    clientId := clientId
    reportDate := day
    balanceApertura := r.initialBalance
    totalVentas := rts.total_ventas
    totalGastos := rts.total_gastos
    efectivoArs := rts.efectivo_ars
    efectivoUsd := rts.efectivo_usd
    transferenciaArs := rts.transferencia_ars
    transferenciaUsd := rts.transferencia_usd
    transferenciaUsdt := rts.transferencia_usdt
    financieraArs := rts.financiera_ars
    financieraUsd := rts.financiera_usd
    balanceCierre := rts.balance_final
    gananciaNeta := rts.balance_final - r.initialBalance
    movimientos := rts.total_movimientos
    autoGeneratedType := "auto_close" }

/-- Creation path of `executeAutoOpen` (part_000 lines 108-131): either the
register insert throws and the catch block logs a failed entry, or a fresh
register with zero balances and open state becomes the tenant's current
register and a success entry is logged. -/
def executeAutoOpenCreate (f : FailSpec) (t : Int) (s : SysState) : SysState :=
  if f.createRegisterFails then
    { s with log := s.log ++ [openFailedEntry s.clientId t] }
  else
    { s with
        register := some
          { id := s.nextId
            clientId := s.clientId
            isOpen := true
            initialBalance := 0
            finalBalance := none
            closedBy := none
            closedAt := none }
        nextId := s.nextId + 1
        log := s.log ++ [openSuccessEntry s.clientId s.nextId t] }

/-- `executeAutoOpen` (part_000 lines 89-144): if the current register
exists and is open, a skipped entry is logged and nothing else changes;
otherwise the creation path runs. -/
def executeAutoOpen (f : FailSpec) (t : Int) (s : SysState) : SysState :=
  match s.register with
  | some r =>
    if r.isOpen then
      { s with log := s.log ++ [openSkippedEntry s.clientId r.id t] }
    else
      executeAutoOpenCreate f t s
  | none => executeAutoOpenCreate f t s

/-- `executeAutoClose` (part_000 lines 147-246): with no open register a
skipped entry is logged; otherwise the workflow fetches the real-time cash
state, inserts the daily report, closes the register (final balance,
closing timestamp, null `closedBy`) and logs a success entry referencing the
register and report ids.  A throw at any awaited step transfers control to
the catch block, which logs a failed entry; steps already committed are NOT
rolled back, so a report inserted before a failing register update stays
persisted. -/
def executeAutoClose (f : FailSpec) (rts : RealTimeState) (t : Int) (s : SysState) :
    SysState :=
  match openRegister? s with
  | none => { s with log := s.log ++ [closeSkippedEntry s.clientId t] }
  | some r =>
    if f.getCashStateFails then
      { s with log := s.log ++ [closeFailedEntry s.clientId t "aggregation failed"] }
    else if f.insertReportFails then
      { s with log := s.log ++ [closeFailedEntry s.clientId t "report insert failed"] }
    else
      let report := autoCloseReport s.clientId s.nextId (localDayArg t) r rts
      if f.updateRegisterFails then
        { s with
            reports := s.reports ++ [report]
            nextId := s.nextId + 1
            log := s.log ++ [closeFailedEntry s.clientId t "register update failed"] }
      else
        { s with
            register := some
              { r with
                  isOpen := false
                  finalBalance := some rts.balance_final
                  closedBy := none
                  closedAt := some t }
            reports := s.reports ++ [report]
            nextId := s.nextId + 1
            log := s.log ++ [closeSuccessEntry s.clientId r.id report.id t] }

/-- `processClientScheduledOperations` (part_000 lines 70-86): one
orchestrator tick for one tenant — evaluate the open schedule and run
auto-open when due, then evaluate the close schedule and run auto-close when
due.  No operation-log lookup happens before invoking either executor. -/
def processClientScheduledOperations (cfg? : Option ScheduleConfig) (f : FailSpec)
    (rts : RealTimeState) (t : Int) (s : SysState) : SysState :=
  let s1 :=
    if shouldExecuteAutoOperation cfg? OpType.opOpen t then executeAutoOpen f t s else s
  if shouldExecuteAutoOperation cfg? OpType.opClose t then executeAutoClose f rts t s1
  else s1

/-- Order row as the vendor-statistics computation reads it. -/
structure Order where
  id : Nat
  vendorId : Nat
  totalUsd : ℚ
  status : String
  paymentStatus : String
deriving DecidableEq

/-- Payment row as the aggregator reads it. -/
structure Payment where
  id : Nat
  orderId : Nat
  amountUsd : ℚ
deriving DecidableEq

/-- Expense row as the aggregator reads it. -/
structure Expense where
  id : Nat
  amountUsd : ℚ
deriving DecidableEq

/-- Debt-payment row as the aggregator reads it. -/
structure DebtPayment where
  id : Nat
  amountUsd : ℚ
deriving DecidableEq

/-- Vendor row: the commission rate columns are nullable strings in the
source, so `none` stands for a null/empty value (JavaScript falsy). -/
structure Vendor where
  id : Nat
  commissionPercentage : Option ℚ
  commission : Option ℚ
deriving DecidableEq

/-- `parseFloat(vendor.commissionPercentage || vendor.commission || "10")`
(part_000 line 414). -/
def vendorCommissionRate (v : Vendor) : ℚ :=
  match v.commissionPercentage with
  | some r => r
  | none =>
    match v.commission with
    | some r => r
    | none => 10

/-- Per-vendor statistics record produced by `calculateVendorStatistics`;
the `orderDetails` sub-array of the source, a projection of the vendor's
orders used only for display, is not modelled. -/
structure VendorStats where
  vendorId : Nat
  commissionRate : ℚ
  totalOrders : Nat
  completedOrders : Nat
  paidOrders : Nat
  totalSales : ℚ
  totalPaymentsReceived : ℚ
  estimatedProfit : ℚ
  commission : ℚ
  averageOrderValue : ℚ
  completionRate : ℚ
  paymentCollectionRate : ℚ
deriving DecidableEq

/-- Body of the `vendors.map` in `calculateVendorStatistics` (part_000 lines
404-446): orders filtered by vendor id, payments filtered to those orders,
`estimatedProfit = totalSales * 0.3`, `commission = estimatedProfit *
commissionRate / 100`, and the average/rate fields guarded by
`totalOrders > 0`. -/
def vendorStatsFor (orders : List Order) (payments : List Payment) (v : Vendor) :
    VendorStats :=
  let vendorOrders := orders.filter (fun o => o.vendorId == v.id)
  let vendorPayments :=
    payments.filter (fun p => vendorOrders.any (fun o => o.id == p.orderId))
  let totalSales := vendorOrders.foldl (fun acc o => acc + o.totalUsd) 0
  let totalPaymentsReceived := vendorPayments.foldl (fun acc p => acc + p.amountUsd) 0
  let commissionRate := vendorCommissionRate v
  let estimatedProfit := totalSales * (3 / 10)
  let commission := estimatedProfit * commissionRate / 100
  let completedOrders := (vendorOrders.filter (fun o => o.status == "completado")).length
  let paidOrders := (vendorOrders.filter (fun o => o.paymentStatus == "pagado")).length
  { vendorId := v.id
    commissionRate := commissionRate
    totalOrders := vendorOrders.length
    completedOrders := completedOrders
    paidOrders := paidOrders
    totalSales := totalSales
    totalPaymentsReceived := totalPaymentsReceived
    estimatedProfit := estimatedProfit
    commission := commission
    averageOrderValue :=
      if 0 < vendorOrders.length then totalSales / (vendorOrders.length : ℚ) else 0
    completionRate :=
      if 0 < vendorOrders.length then
        ((completedOrders : ℚ) / (vendorOrders.length : ℚ)) * 100
      else 0
    paymentCollectionRate :=
      if 0 < vendorOrders.length then
        ((paidOrders : ℚ) / (vendorOrders.length : ℚ)) * 100
      else 0 }

/-- `calculateVendorStatistics` (part_000 lines 403-449): one statistics
record per vendor, then vendors without activity are filtered out.  The
`expenses` argument is accepted but, as in the source, never read. -/
def calculateVendorStatistics (orders : List Order) (payments : List Payment)
    (vendors : List Vendor) (expenses : List Expense) : List VendorStats :=
  (vendors.map (vendorStatsFor orders payments)).filter
    (fun stats => decide (0 < stats.totalOrders))

/-- The `financialSummary` of `generateComprehensiveReport` (part_000 lines
282-301): totals are folds over the day's rows and `netProfit` is
`totalIncome - totalExpenses`. -/
structure FinancialSummary where
  totalIncome : ℚ
  totalExpenses : ℚ
  totalDebtPayments : ℚ
  netProfit : ℚ
  totalVendorCommissions : ℚ
deriving DecidableEq

/-- Financial totals computed by `generateComprehensiveReport` (part_000
lines 282-286): sums of `amountUsd` over payments, expenses and debt
payments, net profit as income minus expenses, and the sum of the vendor
commissions. -/
def comprehensiveFinancialSummary (payments : List Payment) (expenses : List Expense)
    (debtPayments : List DebtPayment) (vendorStats : List VendorStats) :
    FinancialSummary :=
  let totalIncome := payments.foldl (fun sum p => sum + p.amountUsd) 0
  let totalExpenses := expenses.foldl (fun sum e => sum + e.amountUsd) 0
  let totalDebtPayments := debtPayments.foldl (fun sum dp => sum + dp.amountUsd) 0
  let netProfit := totalIncome - totalExpenses
  let totalVendorCommissions := vendorStats.foldl (fun sum v => sum + v.commission) 0
  { totalIncome := totalIncome
    totalExpenses := totalExpenses
    totalDebtPayments := totalDebtPayments
    netProfit := netProfit
    totalVendorCommissions := totalVendorCommissions }

/-- Ordering relation of the log query: ascending `executedTime`. -/
def logLe (a b : LogEntry) : Prop :=
  a.executedTime ≤ b.executedTime

instance : DecidableRel logLe :=
  fun a b => Int.decLe a.executedTime b.executedTime

instance : IsTotal LogEntry logLe :=
  ⟨fun a b => Int.le_total a.executedTime b.executedTime⟩

instance : IsTrans LogEntry logLe :=
  ⟨fun _ _ _ hab hbc => le_trans hab hbc⟩

/-- `getAutoOperationsLog` (cash-schedule-storage.ts lines 125-139): the
tenant's rows, ordered by `executedTime` — drizzle's `orderBy` without
`desc` sorts ASCENDING — and limited to `limit` rows.  The SQL sort is
modelled by insertion sort under `logLe`. -/
def getAutoOperationsLog (rows : List LogEntry) (clientId : Nat) (limit : Nat) :
    List LogEntry :=
  (List.insertionSort logLe (rows.filter (fun e => e.clientId == clientId))).take limit

/-- Boolean test that a list of log entries is ordered most recent first
(non-increasing `executedTime`), the order the spec claims for the log
query. -/
def sortedDescByExecutedTime : List LogEntry → Bool
  | [] => true
  | [_] => true
  | a :: b :: rest =>
    decide (b.executedTime ≤ a.executedTime) && sortedDescByExecutedTime (b :: rest)

/-- Real-time cash state with the exact figures of the source's
`getRealTimeCashState` stub. -/
def rtsMock : RealTimeState :=
  { total_ventas := 1500.75
    total_gastos := 200.50
    efectivo_ars := 50000
    efectivo_usd := 150
    transferencia_ars := 25000
    transferencia_usd := 75.50
    transferencia_usdt := 100
    financiera_ars := 10000
    financiera_usd := 50
    balance_final := 75000.75
    total_movimientos := 25 }

/-- An open register with the source mock's opening balance of 100. -/
def openReg : Register :=
  { id := 1
    clientId := 1
    isOpen := true
    initialBalance := 100
    finalBalance := none
    closedBy := none
    closedAt := none }

/-- State of a tenant whose register is currently open. -/
def sWithOpenRegister : SysState :=
  { clientId := 1
    register := some openReg
    reports := []
    log := []
    nextId := 2 }

/-- State of a tenant with no register at all. -/
def sNoRegister : SysState :=
  { clientId := 1
    register := none
    reports := []
    log := []
    nextId := 1 }

/-- Auto-open at 09:00 every day, auto-close disabled. -/
def tickConfig : ScheduleConfig :=
  { autoOpenEnabled := true
    autoCloseEnabled := false
    openHour := 9
    openMinute := 0
    closeHour := 18
    closeMinute := 0
    activeDays := [1, 2, 3, 4, 5, 6, 7]
    timezone := argentinaZone }

/-- First orchestrator tick run: the register insert throws. -/
def failingFirstTick : FailSpec :=
  { noFail with createRegisterFails := true }

/-- Run in which the register-update step of the close workflow throws. -/
def failUpdate : FailSpec :=
  { noFail with updateRegisterFails := true }

/-- Two consecutive orchestrator ticks one minute apart, both inside the
5-minute window at Monday 09:00 Argentina local time (UTC instants 720 and
721): the first tick's register creation fails, the second tick's
succeeds. -/
def twoTickTrace : SysState :=
  processClientScheduledOperations (some tickConfig) noFail rtsMock 721
    (processClientScheduledOperations (some tickConfig) failingFirstTick rtsMock 720
      sNoRegister)

/-- Non-skipped (success or failed) auto-open log entries, the entries the
at-most-once claim counts. -/
def isNonSkippedOpenEntry (e : LogEntry) : Bool :=
  e.operationType == "auto_open" && !(e.status == "skipped")

/-- Log row with `executedTime` 10. -/
def logA : LogEntry :=
  { clientId := 1
    operationType := "auto_open"
    cashRegisterId := none
    scheduledTime := none
    executedTime := 10
    status := "success"
    errorMessage := none
    reportId := none
    notes := none }

/-- Log row with `executedTime` 20, more recent than `logA`. -/
def logB : LogEntry :=
  { clientId := 1
    operationType := "auto_close"
    cashRegisterId := none
    scheduledTime := none
    executedTime := 20
    status := "success"
    errorMessage := none
    reportId := none
    notes := none }

/-- Vendor with a 10 percent commission rate. -/
def exVendor : Vendor :=
  { id := 5
    commissionPercentage := some 10
    commission := none }

/-- Vendor with no orders in the example day. -/
def exVendorNoOrders : Vendor :=
  { id := 9
    commissionPercentage := none
    commission := none }

/-- Two orders of the example vendor totalling 1000. -/
def exOrders : List Order :=
  [{ id := 1
     vendorId := 5
     totalUsd := 600
     status := "completado"
     paymentStatus := "pagado" },
   { id := 2
     vendorId := 5
     totalUsd := 400
     status := "completado"
     paymentStatus := "pagado" }]

/-- Expected statistics of the example vendor: profit 300, commission 30,
average order value 500. -/
def exStats : VendorStats :=
  { vendorId := 5
    commissionRate := 10
    totalOrders := 2
    completedOrders := 2
    paidOrders := 2
    totalSales := 1000
    totalPaymentsReceived := 0
    estimatedProfit := 300
    commission := 30
    averageOrderValue := 500
    completionRate := 100
    paymentCollectionRate := 100 }

/-- C3: at Tuesday 02:00 Argentina local time with `wrapConfig` (open 09:00,
close 02:00, active days {Monday 1}) the source evaluator returns `false`
even though Monday is active, because the wraparound branch tests membership
of the day AFTER the current one, Wednesday `(2 % 7) + 1 = 3`, in
`activeDays`, not the previous day's; the claim (and the spec's testable
property) require the close to fire here.  The first three conjuncts pin the
scenario: Monday is active, the local weekday is Tuesday (2), the local
minutes-of-day is 120 = 02:00, inside the close window. -/
theorem C3_wraparound_close_checks_tomorrow :
    wrapConfig.activeDays.contains 1 = true ∧
    ((tuesdayTwoAM + tzOffsetMinutes argentinaZone).ediv 1440).emod 7 + 1 = 2 ∧
    (tuesdayTwoAM + tzOffsetMinutes argentinaZone).emod 1440 = 120 ∧
    shouldExecuteAutoOperation (some wrapConfig) OpType.opClose tuesdayTwoAM = false := by
  decide

/-- C4, counterexample: the evaluator is claimed to interpret the instant in
the configuration's own timezone; for `utcConfig` at Monday 09:00 UTC
(instant 540) the spec-modelled per-config-timezone evaluation fires, while
the source evaluator, which always uses Argentina local time, does not. -/
theorem C4_counterexample_timezone_ignored :
    shouldExecuteSpecTimezone (some utcConfig) OpType.opOpen 540 = true ∧
    shouldExecuteAutoOperation (some utcConfig) OpType.opOpen 540 = false := by
  decide

/-- C4, amended: the source evaluator computes the local wall clock in the
fixed zone America/Argentina/Buenos_Aires, ignoring the configuration's
`timezone` field entirely — its result is invariant under changing that
field — and it agrees with the spec's per-config-timezone evaluation exactly
when the configuration's timezone is the Argentina zone. -/
theorem C4_evaluator_fixed_argentina_timezone (cfg : ScheduleConfig) (z : String)
    (op : OpType) (t : Int) :
    shouldExecuteAutoOperation (some { cfg with timezone := z }) op t =
      shouldExecuteAutoOperation (some cfg) op t ∧
    (cfg.timezone = argentinaZone →
      shouldExecuteAutoOperation (some cfg) op t =
        shouldExecuteSpecTimezone (some cfg) op t) := by
  refine ⟨rfl, fun h => ?_⟩
  simp [shouldExecuteAutoOperation, shouldExecuteSpecTimezone, h]

/-- C4 witness: the amended theorem applied at `wrapConfig` (whose timezone
column is the Argentina zone) and the instant 0. -/
theorem C4_evaluator_fixed_argentina_timezone_witness :
    shouldExecuteAutoOperation (some { wrapConfig with timezone := "UTC" }) OpType.opOpen 0 =
      shouldExecuteAutoOperation (some wrapConfig) OpType.opOpen 0 ∧
    shouldExecuteAutoOperation (some wrapConfig) OpType.opOpen 0 =
      shouldExecuteSpecTimezone (some wrapConfig) OpType.opOpen 0 :=
  ⟨(C4_evaluator_fixed_argentina_timezone wrapConfig "UTC" OpType.opOpen 0).1,
   (C4_evaluator_fixed_argentina_timezone wrapConfig "UTC" OpType.opOpen 0).2 rfl⟩

/-- C9: a tenant with no schedule configuration never fires, and a
configuration whose relevant enable flag is off never fires for that
operation type, at every instant. -/
theorem C9_disabled_never_fires (cfg : ScheduleConfig) (op : OpType) (t : Int) :
    shouldExecuteAutoOperation none op t = false ∧
    (cfg.autoOpenEnabled = false →
      shouldExecuteAutoOperation (some cfg) OpType.opOpen t = false) ∧
    (cfg.autoCloseEnabled = false →
      shouldExecuteAutoOperation (some cfg) OpType.opClose t = false) := by
  refine ⟨rfl, fun h => ?_, fun h => ?_⟩ <;>
    simp [shouldExecuteAutoOperation, shouldExecuteCore, h]

/-- C9 witness: the theorem applied to `utcConfig`, whose auto-close flag is
off, at the instant 540. -/
theorem C9_disabled_never_fires_witness :
    shouldExecuteAutoOperation none OpType.opClose 540 = false ∧
    shouldExecuteAutoOperation (some utcConfig) OpType.opClose 540 = false :=
  ⟨(C9_disabled_never_fires utcConfig OpType.opClose 540).1,
   (C9_disabled_never_fires utcConfig OpType.opClose 540).2.2 rfl⟩

/-- C10: `upsertScheduleConfig` stores a supplied `openHour` of 0 as the
default 9 and a supplied `closeHour` of 0 as the default 18, stores an empty
`activeDays` string as "1,2,3,4,5,6,7", and — since every falsy value is
replaced by its default — never persists 0 in the `openHour` or `closeHour`
column, for either the update or the insert branch. -/
theorem C10_falsy_fields_get_defaults (existing : Option StoredScheduleConfig)
    (c : ConfigInput) :
    (upsertScheduleConfig existing { c with openHour := some 0 }).openHour = 9 ∧
    (upsertScheduleConfig existing { c with closeHour := some 0 }).closeHour = 18 ∧
    (upsertScheduleConfig existing { c with activeDays := "" }).activeDays =
      "1,2,3,4,5,6,7" ∧
    ((upsertScheduleConfig existing c).openHour == 0) = false ∧
    ((upsertScheduleConfig existing c).closeHour == 0) = false := by
  have hopen : ∀ x : Option Int, ((parseIntOr x 9) == 0) = false := by
    intro x
    match x with
    | none => decide
    | some n =>
      simp only [parseIntOr, jsOr]
      split
      · decide
      · next h => simpa using h
  have hclose : ∀ x : Option Int, ((parseIntOr x 18) == 0) = false := by
    intro x
    match x with
    | none => decide
    | some n =>
      simp only [parseIntOr, jsOr]
      split
      · decide
      · next h => simpa using h
  cases existing <;>
    exact ⟨rfl, rfl, rfl, hopen c.openHour, hclose c.closeHour⟩

/-- C7: when an executor workflow's precondition is violated — the register
is already open for auto-open, or no register is open for auto-close — the
workflow appends exactly one skipped log entry and leaves every other
component of the state (register, reports, next id) unchanged: no register
is created and no report is created.  This holds under any failure
injection, since neither skipped path reaches a database write other than
the log append. -/
theorem C7_precondition_violation_logs_skipped (f : FailSpec) (rts : RealTimeState)
    (t : Int) (s : SysState) (r : Register) :
    (s.register = some r → r.isOpen = true →
      executeAutoOpen f t s =
        { s with log := s.log ++ [openSkippedEntry s.clientId r.id t] }) ∧
    (openRegister? s = none →
      executeAutoClose f rts t s =
        { s with log := s.log ++ [closeSkippedEntry s.clientId t] }) := by
  constructor
  · intro h1 h2
    simp [executeAutoOpen, h1, h2]
  · intro h
    simp [executeAutoClose, h]

/-- C7 witness: auto-open on a tenant whose register is open, and auto-close
on a tenant with no register, each log one skipped entry and change nothing
else. -/
theorem C7_precondition_violation_logs_skipped_witness :
    executeAutoOpen noFail 0 sWithOpenRegister =
      { sWithOpenRegister with
          log := sWithOpenRegister.log ++
            [openSkippedEntry sWithOpenRegister.clientId openReg.id 0] } ∧
    executeAutoClose noFail rtsMock 0 sNoRegister =
      { sNoRegister with
          log := sNoRegister.log ++ [closeSkippedEntry sNoRegister.clientId 0] } :=
  ⟨(C7_precondition_violation_logs_skipped noFail rtsMock 0 sWithOpenRegister openReg).1
      rfl rfl,
   (C7_precondition_violation_logs_skipped noFail rtsMock 0 sNoRegister openReg).2 rfl⟩

/-- C2, counterexample: the close workflow is claimed to be atomic — on any
failure "nothing is committed".  Injecting a failure at the register-update
step on a state with an open register leaves the register open and logs one
failed entry, but the daily report inserted by the preceding step REMAINS
committed: the source closes the register and creates the report in separate
awaited statements with no transaction or rollback. -/
theorem C2_counterexample_report_survives_failed_close :
    (openRegister? (executeAutoClose failUpdate rtsMock 0 sWithOpenRegister)).isSome =
      true ∧
    (executeAutoClose failUpdate rtsMock 0 sWithOpenRegister).reports =
      [autoCloseReport 1 2 (localDayArg 0) openReg rtsMock] ∧
    (executeAutoClose failUpdate rtsMock 0 sWithOpenRegister).log =
      [closeFailedEntry 1 0 "register update failed"] ∧
    (closeFailedEntry 1 0 "register update failed").status = "failed" := by
  exact ⟨rfl, rfl, rfl, rfl⟩

/-- C2, amended: with an open register, either every step succeeds — the
register is closed with the final balance, a null `closedBy` and the closing
timestamp, exactly one report is appended and one success entry logged — or
some step fails, in which case the register keeps its prior (open) state and
exactly one failed entry is appended; however a report inserted before the
failing step is not rolled back, so on a register-update failure the reports
list still grows by the inserted report. -/
theorem C2_close_commit_behaviour (f : FailSpec) (rts : RealTimeState) (t : Int)
    (s : SysState) (r : Register) (h : openRegister? s = some r) :
    (f = noFail →
      executeAutoClose f rts t s =
        { s with
            register := some
              { r with
                  isOpen := false
                  finalBalance := some rts.balance_final
                  closedBy := none
                  closedAt := some t }
            reports := s.reports ++
              [autoCloseReport s.clientId s.nextId (localDayArg t) r rts]
            nextId := s.nextId + 1
            log := s.log ++ [closeSuccessEntry s.clientId r.id s.nextId t] }) ∧
    (f.getCashStateFails = true ∨ f.insertReportFails = true ∨
        f.updateRegisterFails = true →
      (executeAutoClose f rts t s).register = s.register ∧
      openRegister? (executeAutoClose f rts t s) = some r ∧
      (∃ e, (executeAutoClose f rts t s).log = s.log ++ [e] ∧ e.status = "failed") ∧
      ((executeAutoClose f rts t s).reports = s.reports ∨
        (executeAutoClose f rts t s).reports =
          s.reports ++ [autoCloseReport s.clientId s.nextId (localDayArg t) r rts])) := by
  constructor
  · intro hf
    subst hf
    simp [executeAutoClose, h, noFail, autoCloseReport]
  · intro hf
    obtain ⟨fc, fg, fi, fu⟩ := f
    simp only at hf
    cases fg <;> cases fi <;> cases fu <;>
      simp_all [executeAutoClose, h, openRegister?, closeFailedEntry]

/-- C2 witness: the amended theorem's success branch applied to the concrete
open-register state, the mock real-time totals and the instant 0. -/
theorem C2_close_commit_behaviour_witness :
    executeAutoClose noFail rtsMock 0 sWithOpenRegister =
      { sWithOpenRegister with
          register := some
            { openReg with
                isOpen := false
                finalBalance := some rtsMock.balance_final
                closedBy := none
                closedAt := some 0 }
          reports := sWithOpenRegister.reports ++
            [autoCloseReport sWithOpenRegister.clientId sWithOpenRegister.nextId
              (localDayArg 0) openReg rtsMock]
          nextId := sWithOpenRegister.nextId + 1
          log := sWithOpenRegister.log ++
            [closeSuccessEntry sWithOpenRegister.clientId openReg.id
              sWithOpenRegister.nextId 0] } :=
  (C2_close_commit_behaviour noFail rtsMock 0 sWithOpenRegister openReg rfl).1 rfl

/-- C5, counterexample: the report produced by the automatic close workflow
is claimed to have a net profit equal to the day's income minus expenses; on
the source's own stub figures (sales 1500.75, expenses 200.50, final balance
75000.75, opening balance 100) the report written by `executeAutoClose`
carries `gananciaNeta = 74900.75`, which differs from its own recorded
`totalVentas - totalGastos = 1300.25`. -/
theorem C5_counterexample_profit_is_not_income_minus_expenses :
    (executeAutoClose noFail rtsMock 0 sWithOpenRegister).reports =
      [autoCloseReport 1 2 (localDayArg 0) openReg rtsMock] ∧
    (autoCloseReport 1 2 (localDayArg 0) openReg rtsMock).gananciaNeta =
      (74900.75 : ℚ) ∧
    (autoCloseReport 1 2 (localDayArg 0) openReg rtsMock).totalVentas -
        (autoCloseReport 1 2 (localDayArg 0) openReg rtsMock).totalGastos =
      (1300.25 : ℚ) ∧
    (autoCloseReport 1 2 (localDayArg 0) openReg rtsMock).gananciaNeta ≠
      (autoCloseReport 1 2 (localDayArg 0) openReg rtsMock).totalVentas -
        (autoCloseReport 1 2 (localDayArg 0) openReg rtsMock).totalGastos := by
  refine ⟨rfl, ?_, ?_, ?_⟩ <;> norm_num [autoCloseReport, rtsMock, openReg]

/-- C5, amended: the report the auto-close workflow inserts has
`gananciaNeta` equal to the real-time final balance minus the register's
opening balance (closing balance minus opening balance), not income minus
expenses; the separate `generateComprehensiveReport` helper — which the
auto-close workflow never invokes — is the function whose `netProfit` equals
`totalIncome - totalExpenses` as summed from the day's payments and
expenses. -/
theorem C5_close_report_profit_is_balance_difference (f : FailSpec)
    (rts : RealTimeState) (t : Int) (s : SysState) (r : Register)
    (h : openRegister? s = some r) (hg : f.getCashStateFails = false)
    (hi : f.insertReportFails = false) :
    (executeAutoClose f rts t s).reports =
      s.reports ++ [autoCloseReport s.clientId s.nextId (localDayArg t) r rts] ∧
    (autoCloseReport s.clientId s.nextId (localDayArg t) r rts).gananciaNeta =
      rts.balance_final - r.initialBalance ∧
    ∀ (payments : List Payment) (expenses : List Expense)
      (debts : List DebtPayment) (vstats : List VendorStats),
      (comprehensiveFinancialSummary payments expenses debts vstats).netProfit =
        payments.foldl (fun sum p => sum + p.amountUsd) 0 -
          expenses.foldl (fun sum e => sum + e.amountUsd) 0 := by
  refine ⟨?_, rfl, fun _ _ _ _ => rfl⟩
  cases hu : f.updateRegisterFails <;>
    simp [executeAutoClose, h, hg, hi, hu]

/-- C5 witness: the amended theorem applied to the concrete open-register
state with the mock totals, evaluated with one payment of 70 and one expense
of 30. -/
theorem C5_close_report_profit_is_balance_difference_witness :
    (executeAutoClose noFail rtsMock 0 sWithOpenRegister).reports =
      sWithOpenRegister.reports ++
        [autoCloseReport sWithOpenRegister.clientId sWithOpenRegister.nextId
          (localDayArg 0) openReg rtsMock] ∧
    (autoCloseReport sWithOpenRegister.clientId sWithOpenRegister.nextId
        (localDayArg 0) openReg rtsMock).gananciaNeta =
      rtsMock.balance_final - openReg.initialBalance ∧
    (comprehensiveFinancialSummary [{ id := 1, orderId := 1, amountUsd := 70 }]
        [{ id := 1, amountUsd := 30 }] [] []).netProfit =
      ([({ id := 1, orderId := 1, amountUsd := 70 } : Payment)].foldl
          (fun sum p => sum + p.amountUsd) 0 -
        [({ id := 1, amountUsd := 30 } : Expense)].foldl
          (fun sum e => sum + e.amountUsd) 0) := by
  have h := C5_close_report_profit_is_balance_difference noFail rtsMock 0
    sWithOpenRegister openReg rfl rfl rfl
  exact ⟨h.1, h.2.1,
    h.2.2 [{ id := 1, orderId := 1, amountUsd := 70 }] [{ id := 1, amountUsd := 30 }] [] []⟩

/-- C1, counterexample: the orchestrator is claimed to consult the operation
log and produce at most one non-skipped entry per tenant, operation type and
local day.  In `twoTickTrace`, two consecutive ticks one minute apart fall
in the same 5-minute window on the same local day (both evaluations return
true); the first tick's register creation fails (one `failed` entry), and
since `processClientScheduledOperations` performs no log lookup, the second
tick executes again and succeeds (one `success` entry): two non-skipped
auto-open entries for the same tenant, operation type and day. -/
theorem C1_counterexample_two_nonskipped_entries_same_window :
    shouldExecuteAutoOperation (some tickConfig) OpType.opOpen 720 = true ∧
    shouldExecuteAutoOperation (some tickConfig) OpType.opOpen 721 = true ∧
    localDayArg 720 = localDayArg 721 ∧
    twoTickTrace.log =
      [openFailedEntry 1 720, openSuccessEntry 1 1 721] ∧
    twoTickTrace.log.countP isNonSkippedOpenEntry = 2 := by
  exact ⟨rfl, rfl, rfl, rfl, rfl⟩

/-- C1, amended: `processClientScheduledOperations` performs no operation-log
lookup before invoking an executor; at-most-once per window is enforced only
by the executor's register-state precondition.  Consequently, when no step
fails: two consecutive ticks whose open evaluations are both true (the same
matching window) produce exactly one success entry — the first tick opens
the register, the second finds it open and logs a skipped entry — so the
count of non-skipped auto-open entries grows by exactly one. -/
theorem C1_dedup_via_register_precondition (cfg : ScheduleConfig)
    (rts : RealTimeState) (s : SysState) (t1 t2 : Int)
    (ho1 : shouldExecuteAutoOperation (some cfg) OpType.opOpen t1 = true)
    (ho2 : shouldExecuteAutoOperation (some cfg) OpType.opOpen t2 = true)
    (hc1 : shouldExecuteAutoOperation (some cfg) OpType.opClose t1 = false)
    (hc2 : shouldExecuteAutoOperation (some cfg) OpType.opClose t2 = false)
    (hr : s.register = none) :
    (processClientScheduledOperations (some cfg) noFail rts t2
        (processClientScheduledOperations (some cfg) noFail rts t1 s)).log =
      s.log ++ [openSuccessEntry s.clientId s.nextId t1,
        openSkippedEntry s.clientId s.nextId t2] ∧
    (processClientScheduledOperations (some cfg) noFail rts t2
          (processClientScheduledOperations (some cfg) noFail rts t1 s)).log.countP
        isNonSkippedOpenEntry =
      s.log.countP isNonSkippedOpenEntry + 1 := by
  have hlog :
      (processClientScheduledOperations (some cfg) noFail rts t2
          (processClientScheduledOperations (some cfg) noFail rts t1 s)).log =
        s.log ++ [openSuccessEntry s.clientId s.nextId t1,
          openSkippedEntry s.clientId s.nextId t2] := by
    simp [processClientScheduledOperations, ho1, ho2, hc1, hc2, executeAutoOpen,
      executeAutoOpenCreate, hr, noFail]
  refine ⟨hlog, ?_⟩
  rw [hlog, List.countP_append]
  simp [isNonSkippedOpenEntry, openSuccessEntry, openSkippedEntry, List.countP_cons]

/-- C1 witness: the amended theorem applied to the two concrete ticks at
Monday 09:00 and 09:01 Argentina local time on a tenant with no register. -/
theorem C1_dedup_via_register_precondition_witness :
    (processClientScheduledOperations (some tickConfig) noFail rtsMock 721
        (processClientScheduledOperations (some tickConfig) noFail rtsMock 720
          sNoRegister)).log =
      sNoRegister.log ++ [openSuccessEntry sNoRegister.clientId sNoRegister.nextId 720,
        openSkippedEntry sNoRegister.clientId sNoRegister.nextId 721] ∧
    (processClientScheduledOperations (some tickConfig) noFail rtsMock 721
          (processClientScheduledOperations (some tickConfig) noFail rtsMock 720
            sNoRegister)).log.countP isNonSkippedOpenEntry =
      sNoRegister.log.countP isNonSkippedOpenEntry + 1 :=
  C1_dedup_via_register_precondition tickConfig rtsMock sNoRegister 720 721
    rfl rfl rfl rfl rfl

/-- C6, counterexample: the log query is claimed to return the most recent
entry first; for a tenant with an entry at time 10 and one at time 20 the
query returns the OLDEST first — drizzle's `orderBy` without `desc` sorts
ascending — so the result is not ordered most-recent-first. -/
theorem C6_counterexample_not_most_recent_first :
    getAutoOperationsLog [logA, logB] 1 50 = [logA, logB] ∧
    logA.executedTime < logB.executedTime ∧
    sortedDescByExecutedTime (getAutoOperationsLog [logA, logB] 1 50) = false := by
  exact ⟨rfl, by decide, by decide⟩

/-- C6, amended: for every tenant and limit, `getAutoOperationsLog` returns
the tenant's log entries as an ordered sequence with the OLDEST entry first
(ascending `executedTime`), truncated to at most `limit` entries, and every
returned entry belongs to the queried tenant. -/
theorem C6_log_query_returns_oldest_first (rows : List LogEntry) (c : Nat) (n : Nat) :
    List.Sorted logLe (getAutoOperationsLog rows c n) ∧
    (getAutoOperationsLog rows c n).length ≤ n ∧
    ∀ e ∈ getAutoOperationsLog rows c n, e.clientId = c := by
  refine ⟨?_, ?_, ?_⟩
  · exact List.Pairwise.sublist (List.take_sublist _ _)
      (List.sorted_insertionSort logLe _)
  · exact List.length_take_le _ _
  · intro e he
    have h1 : e ∈ List.insertionSort logLe (rows.filter fun x => x.clientId == c) :=
      List.mem_of_mem_take he
    have h2 : e ∈ rows.filter (fun x => x.clientId == c) :=
      (List.perm_insertionSort logLe _).subset h1
    simpa using (List.mem_filter.mp h2).2

/-- C6 witness: the amended theorem applied to the concrete two-entry log
with limit 2, its membership conjunct instantiated at the head entry. -/
theorem C6_log_query_returns_oldest_first_witness :
    List.Sorted logLe (getAutoOperationsLog [logB, logA] 1 2) ∧
    (getAutoOperationsLog [logB, logA] 1 2).length ≤ 2 ∧
    logA.clientId = 1 :=
  ⟨(C6_log_query_returns_oldest_first [logB, logA] 1 2).1,
   (C6_log_query_returns_oldest_first [logB, logA] 1 2).2.1,
   (C6_log_query_returns_oldest_first [logB, logA] 1 2).2.2 logA (by decide)⟩

/-- Helper: for a vendor with at least one order, the average order value is
the vendor's total sales divided by the order count (the guarded branch of
the source's conditional). -/
theorem vendorStatsFor_averageOrderValue (orders : List Order) (payments : List Payment)
    (v : Vendor) (h : 0 < (vendorStatsFor orders payments v).totalOrders) :
    (vendorStatsFor orders payments v).averageOrderValue =
      (vendorStatsFor orders payments v).totalSales /
        ((vendorStatsFor orders payments v).totalOrders : ℚ) := by
  have h' : 0 < (orders.filter fun o => o.vendorId == v.id).length := h
  simp [vendorStatsFor, h']

/-- C8: every record returned by `calculateVendorStatistics` belongs to a
vendor with at least one order that day (zero-order vendors are filtered
out), and satisfies `estimatedProfit = totalSales * 0.30`,
`commission = estimatedProfit * commissionRate / 100` and
`averageOrderValue = totalSales / totalOrders`; concretely, a vendor with
two orders totalling 1000 at a 10 percent rate yields profit 300, commission
30 and average order value 500, while a vendor with no orders is absent from
the returned list. -/
theorem C8_vendor_statistics (orders : List Order) (payments : List Payment)
    (vendors : List Vendor) (expenses : List Expense) (s : VendorStats)
    (hs : s ∈ calculateVendorStatistics orders payments vendors expenses) :
    0 < s.totalOrders ∧
    s.estimatedProfit = s.totalSales * (3 / 10) ∧
    s.commission = s.estimatedProfit * s.commissionRate / 100 ∧
    s.averageOrderValue = s.totalSales / (s.totalOrders : ℚ) ∧
    calculateVendorStatistics exOrders [] [exVendor, exVendorNoOrders] [] = [exStats] := by
  obtain ⟨hmem, hp⟩ := List.mem_filter.mp hs
  obtain ⟨v, hv, heq⟩ := List.mem_map.mp hmem
  subst heq
  have hpos : 0 < (vendorStatsFor orders payments v).totalOrders := of_decide_eq_true hp
  refine ⟨hpos, rfl, rfl, vendorStatsFor_averageOrderValue orders payments v hpos, ?_⟩
  simp [calculateVendorStatistics, vendorStatsFor, exOrders, exVendor, exVendorNoOrders,
    exStats, vendorCommissionRate]
  norm_num

/-- C8 witness: the theorem applied to the example vendor's statistics
record, whose membership in the computed list is established by
evaluation. -/
theorem C8_vendor_statistics_witness :
    0 < exStats.totalOrders ∧
    exStats.estimatedProfit = exStats.totalSales * (3 / 10) ∧
    exStats.commission = exStats.estimatedProfit * exStats.commissionRate / 100 ∧
    exStats.averageOrderValue = exStats.totalSales / (exStats.totalOrders : ℚ) ∧
    calculateVendorStatistics exOrders [] [exVendor, exVendorNoOrders] [] = [exStats] :=
  C8_vendor_statistics exOrders [] [exVendor, exVendorNoOrders] [] exStats (by
    have h : calculateVendorStatistics exOrders [] [exVendor, exVendorNoOrders] [] =
        [exStats] := by
      simp [calculateVendorStatistics, vendorStatsFor, exOrders, exVendor,
        exVendorNoOrders, exStats, vendorCommissionRate]
      norm_num
    rw [h]
    exact List.mem_singleton_self _)

end CashAutomation
